import Mathlib

/-!
Shallow embedding of `nftopia_analytics/analytics/views.py` (Django/DRF views
of the NFTopia analytics dashboard) and of the Cohort Builder it invokes.

Conventions of the embedding:
* HTTP requests are explicit records carrying the acting user, the POST
  payload (`data`), the query string (`GET`) and the server metadata (`META`),
  each an association list of string pairs, mirroring the dict-like access
  `request.data.get(key, default)` in the source.
* The persisted `WalletConnection` table is a list of records; a create
  appends.  Python exceptions raised by the ORM (`objects.create`) or by
  `update_metrics` are modelled by an explicit `DBEnv` whose fields carry
  the exception text when the corresponding call would raise; the
  `try/except` of the view is the `match` on the `Except` result.
* Timestamps are integers (seconds since the epoch); the SQL `date(...)`
  bucketing in `wallet_trends` becomes integer division by 86400.
-/

/-- The authenticated (or anonymous) actor attached to a request
(`request.user`).  `has_behavior_metrics` mirrors
`hasattr(request.user, "behavior_metrics")`. -/
structure UserT where
  uid : Nat
  is_authenticated : Bool
  is_staff : Bool
  has_behavior_metrics : Bool
deriving Repr, DecidableEq

/-- One row of the `WalletConnection` table, with the fields written by
`track_wallet_connection`. -/
structure WalletConnection where
  user_id : Nat
  wallet_provider : String
  wallet_address : String
  connection_status : String
  error_message : String
  ip_address : String
  user_agent : String
  attempted_at : Int
deriving Repr, DecidableEq

/-- An incoming HTTP request as the views see it. -/
structure Request where
  user : UserT
  data : List (String × String)
  GET : List (String × String)
  META : List (String × String)
deriving Repr, DecidableEq

/-- `d.get(key, default)` on a Python dict modelled as an association list. -/
def dictGet (l : List (String × String)) (key dflt : String) : String :=
  match l.find? (fun p => p.1 = key) with
  | some p => p.2
  | none => dflt

/-- A DRF `Response`: HTTP status code plus the `status` and optional
`message` fields of the JSON body. -/
structure Response where
  status_code : Nat
  body_status : String
  body_message : Option String
deriving Repr, DecidableEq

/-- Faults of the external collaborators: when a field is `some e`, the
corresponding call (`WalletConnection.objects.create`, resp.
`behavior_metrics.update_metrics`) raises a Python exception whose
`str(...)` is `e`; `none` means the call succeeds. -/
structure DBEnv where
  create_raises : Option String
  metrics_raises : Option String
deriving Repr, DecidableEq

/-- The body of the `try:` block of `track_wallet_connection`.
On success it yields the response, the new table contents and the number
of `update_metrics` calls performed on the acting user; a raised exception
is an `Except.error` carrying `str(e)` together with the table contents and
metric-update count at the moment of the raise (the ORM create, once
performed, is not rolled back by the `except` clause). -/
def track_body (req : Request) (store : List WalletConnection) (env : DBEnv)
    (now : Int) :
    Except (String × List WalletConnection × Nat)
      (Response × List WalletConnection × Nat) :=
  if req.user.is_authenticated then
    match env.create_raises with
    | some e => Except.error (e, store, 0)
    | none =>
      let store2 := store ++ [{
        user_id := req.user.uid,
        wallet_provider := dictGet req.data "provider" "other",
        wallet_address := dictGet req.data "address" "",
        connection_status := dictGet req.data "status" "failed",
        error_message := dictGet req.data "error" "",
        ip_address := dictGet req.META "REMOTE_ADDR" "",
        user_agent := dictGet req.META "HTTP_USER_AGENT" "",
        attempted_at := now }]
      if req.user.has_behavior_metrics then
        match env.metrics_raises with
        | some e => Except.error (e, store2, 0)
        | none =>
          Except.ok ({ status_code := 200, body_status := "success",
                       body_message := none }, store2, 1)
      else
        Except.ok ({ status_code := 200, body_status := "success",
                     body_message := none }, store2, 0)
  else
    Except.ok ({ status_code := 401, body_status := "error",
                 body_message := some "User not authenticated" }, store, 0)

/-- `track_wallet_connection`: the `try/except` wrapper turning any raised
exception into `Response({"status": "error", "message": str(e)}, 400)`. -/
def track_wallet_connection (req : Request) (store : List WalletConnection)
    (env : DBEnv) (now : Int) : Response × List WalletConnection × Nat :=
  match track_body req store env now with
  | Except.ok r => r
  | Except.error (e, s, u) =>
    ({ status_code := 400, body_status := "error", body_message := some e },
     s, u)

/-- Decision taken by the authorization wrapping before a view body runs:
either the handler proceeds, or the framework answers with the given HTTP
status code (302 denotes the redirect-to-login response). -/
inductive GuardDecision where
  | proceed
  | deny (status_code : Nat)
deriving Repr, DecidableEq

/-- `is_staff_user` from views.py: check if user is staff. -/
def is_staff_user (u : UserT) : Bool := u.is_staff

/-- Embeds DRF `@permission_classes([IsAuthenticated])` under the JWT
authentication class named by the decorator: a request without a valid
credential is rejected with HTTP 401 before the view body runs. -/
def isAuthenticated_check (u : UserT) : Option Nat :=
  if u.is_authenticated then none else some 401

/-- Embeds `django.contrib.auth.decorators.user_passes_test test`: when
the test fails on `request.user`, the wrapped view returns
`redirect_to_login(...)`, an HTTP 302 redirect to the login page; it never
produces an HTTP 403 response. -/
def user_passes_test_check (test : UserT → Bool) (u : UserT) : Option Nat :=
  if test u then none else some 302

/-- The decorator chain of `jwt_staff_required` (and of the three bare
`api_...` endpoints, which stack the same three decorators): DRF first
enforces `IsAuthenticated`, then the django-wrapped view applies
`user_passes_test is_staff_user` before reaching the handler body. -/
def jwt_staff_required_guard (u : UserT) : GuardDecision :=
  match isAuthenticated_check u with
  | some c => GuardDecision.deny c
  | none =>
    match user_passes_test_check is_staff_user u with
    | some c => GuardDecision.deny c
    | none => GuardDecision.proceed

/-- Python `int(s)` on a string: strip surrounding whitespace, allow one
optional sign, then decimal digits; anything else raises `ValueError` with
the message `invalid literal for int() with base 10: s`. -/
def digitsVal (l : List Char) : Nat :=
  l.foldl (fun a c => 10 * a + (c.toNat - 48)) 0

/-- Surrounding-whitespace stripping done by Python `int` on its string
argument. -/
def pyStrip (cs : List Char) : List Char :=
  ((cs.dropWhile Char.isWhitespace).reverse.dropWhile Char.isWhitespace).reverse

def pyInt (s : String) : Except String Int :=
  let cs := pyStrip s.toList
  let sd : Int × List Char :=
    match cs with
    | c :: rest =>
      if c = Char.ofNat 43 then (1, rest)
      else if c = Char.ofNat 45 then (-1, rest)
      else (1, cs)
    | [] => (1, [])
  if sd.2 ≠ [] ∧ sd.2.all Char.isDigit then
    Except.ok (sd.1 * (digitsVal sd.2 : Int))
  else
    Except.error ("invalid literal for int() with base 10: '" ++ s ++ "'")

/-- Outcome of a guarded GET view: denied by the framework before the body
runs, a Python exception propagating out of the body, or a value. -/
inductive HandlerOutcome (α : Type) where
  | denied (status_code : Nat)
  | raised (msg : String)
  | ok (val : α)
deriving Repr, DecidableEq

/-- One row of the `daily_connections` aggregation of `wallet_trends`. -/
structure DailyRow where
  day : Int
  total : Nat
  successful : Nat
  failed : Nat
deriving Repr, DecidableEq

/-- The calendar-day bucket of a timestamp (the SQL `date(attempted_at)`):
days since the epoch. -/
def dayOf (t : Int) : Int := t / 86400

/-- The window filter of the `daily_connections` query:
`WalletConnection.objects.filter(attempted_at__gte=now - timedelta(days=days))`. -/
def recentConnections (store : List WalletConnection) (now days : Int) :
    List WalletConnection :=
  store.filter (fun c => now - days * 86400 ≤ c.attempted_at)

/-- The grouping keys of the `daily_connections` query: the distinct
calendar days of the windowed rows, in ascending order (`.values("day")`
grouping followed by `.order_by("day")`). -/
def dailyKeys (store : List WalletConnection) (now days : Int) : List Int :=
  List.insertionSort (· ≤ ·)
    (((recentConnections store now days).map (fun c => dayOf c.attempted_at)).dedup)

/-- The annotated counts of one group of the `daily_connections` query:
`total=Count("id")`, `successful=Count("id", filter=Q(connection_status="success"))`,
`failed=Count("id", filter=Q(connection_status="failed"))`. -/
def dailyRowFor (store : List WalletConnection) (now days d : Int) : DailyRow :=
  let sameDay :=
    (recentConnections store now days).filter (fun c => dayOf c.attempted_at = d)
  { day := d,
    total := sameDay.length,
    successful := (sameDay.filter (fun c => c.connection_status = "success")).length,
    failed := (sameDay.filter (fun c => c.connection_status = "failed")).length }

/-- The `daily_connections` query of `wallet_trends`: windowed rows grouped
by calendar day with per-day status counts, ordered by day. -/
def daily_connections (store : List WalletConnection) (now days : Int) :
    List DailyRow :=
  (dailyKeys store now days).map (dailyRowFor store now days)

/-- `wallet_trends`: after the staff guard, `days = int(request.GET.get("days", 30))`
(the `int` conversion may raise), then the daily connection breakdown. -/
def wallet_trends (req : Request) (store : List WalletConnection)
    (now : Int) : HandlerOutcome (List DailyRow × Int) :=
  match jwt_staff_required_guard req.user with
  | GuardDecision.deny c => HandlerOutcome.denied c
  | GuardDecision.proceed =>
    match pyInt (dictGet req.GET "days" "30") with
    | Except.error e => HandlerOutcome.raised e
    | Except.ok days => HandlerOutcome.ok (daily_connections store now days, days)

/-- `api_session_data`: after the staff guard,
`days = int(request.GET.get("days", 30))` (may raise), then the parsed value
is handed to `get_session_analytics` (defined in `analytics/utils.py`,
outside the provided sources); the model returns that argument. -/
def api_session_data (req : Request) : HandlerOutcome Int :=
  match jwt_staff_required_guard req.user with
  | GuardDecision.deny c => HandlerOutcome.denied c
  | GuardDecision.proceed =>
    match pyInt (dictGet req.GET "days" "30") with
    | Except.error e => HandlerOutcome.raised e
    | Except.ok days => HandlerOutcome.ok days

/-- A sample successful connection on calendar day 1, for witnesses. -/
def connA : WalletConnection :=
  { user_id := 1, wallet_provider := "metamask", wallet_address := "0xA",
    connection_status := "success", error_message := "", ip_address := "",
    user_agent := "", attempted_at := 90000 }

/-- A sample failed connection on calendar day 0, for witnesses. -/
def connB : WalletConnection :=
  { user_id := 2, wallet_provider := "argent", wallet_address := "0xB",
    connection_status := "failed", error_message := "timeout",
    ip_address := "", user_agent := "", attempted_at := 1000 }

/-- One recorded login session (a `UserSession` row): the user and the
login timestamp, counted in days since the epoch. -/
structure Session where
  user_id : Nat
  login_at : Nat
deriving Repr, DecidableEq

/-- One materialized `RetentionCohort` row. -/
structure RetentionCohort where
  cohort_date : Nat
  period_type : String
  period_number : Nat
  total_users : Nat
  retained_users : Nat
  retention_rate : ℚ
deriving Repr, DecidableEq

/-- Modelled from the spec: the length, in days, of the period bucket of
each `period_type` of the fixed enumeration daily/weekly/monthly.  The
spec fixes only the enumeration; a value outside it is bucketed at the
default weekly granularity. -/
def periodLength (period_type : String) : Nat :=
  if period_type = "daily" then 1
  else if period_type = "weekly" then 7
  else if period_type = "monthly" then 30
  else 7

/-- Modelled from the spec: the acquisition moment of a user, the earliest
recorded session login (step 1 of the Cohort Builder algorithm groups each
user by the period containing the first recorded session). -/
def firstLogin (sessions : List Session) (u : Nat) : Nat :=
  match (sessions.filter (fun s => s.user_id = u)).map (fun s => s.login_at) with
  | [] => 0
  | t :: ts => ts.foldl min t

/-- Modelled from the spec: `calculate_retention_cohorts` is defined in
`analytics/utils.py`, which is not among the provided sources — only its
caller `retention_analysis` is.  Following spec section 4.1: partition the
known users into cohorts by the period of their first session; for each
cohort and each period offset `k` from 0 up to the present period, count
the cohort members with at least one session inside period
`cohort + k`; `retention_rate = retained_users / total_users`, taken as 0
when `total_users = 0`.  The returned list is the set of upserted rows. -/
def calculate_retention_cohorts (period_type : String)
    (sessions : List Session) (now : Nat) : List RetentionCohort :=
  let len := periodLength period_type
  let users := (sessions.map (fun s => s.user_id)).dedup
  let cohortOf := fun u => firstLogin sessions u / len
  let cohortPeriods := (users.map cohortOf).dedup
  cohortPeriods.flatMap (fun cp =>
    let members := users.filter (fun u => cohortOf u = cp)
    (List.range (now / len - cp + 1)).map (fun k =>
      let retained := members.filter (fun u =>
        (sessions.filter (fun s => s.user_id = u)).any
          (fun s => s.login_at / len = cp + k))
      { cohort_date := cp * len,
        period_type := period_type,
        period_number := k,
        total_users := members.length,
        retained_users := retained.length,
        retention_rate :=
          if members.length = 0 then 0
          else (retained.length : ℚ) / (members.length : ℚ) }))

/-- A sample session of user 1 on day 0, for witnesses. -/
def sampleSession : Session := { user_id := 1, login_at := 0 }

/-- The cohort row the Cohort Builder produces from `sampleSession` at
weekly granularity. -/
def sampleCohortRow : RetentionCohort :=
  { cohort_date := 0, period_type := "weekly", period_number := 0,
    total_users := 1, retained_users := 1, retention_rate := 1 }

/-- `period_type = request.GET.get("period", "weekly")` in
`retention_analysis`: the caller-supplied value, unvalidated. -/
def retention_analysis_period (req : Request) : String :=
  dictGet req.GET "period" "weekly"

/-- `retention_analysis` handing the period over to the Cohort Builder:
`calculate_retention_cohorts(period_type)`. -/
def retention_analysis (req : Request) (sessions : List Session)
    (now : Nat) : List RetentionCohort :=
  calculate_retention_cohorts (retention_analysis_period req) sessions now

/-- C1: an unauthenticated POST to `track_wallet_connection` gets HTTP 401
with body status "error" and message "User not authenticated", and the
`WalletConnection` store is unchanged (no metrics update either). -/
theorem C1_unauthenticated_track (req : Request) (store : List WalletConnection)
    (env : DBEnv) (now : Int) (h : req.user.is_authenticated = false) :
    track_wallet_connection req store env now =
      ({ status_code := 401, body_status := "error",
         body_message := some "User not authenticated" }, store, 0) := by
  simp [track_wallet_connection, track_body, h]

theorem C1_unauthenticated_track_witness :
    track_wallet_connection
        { user := { uid := 7, is_authenticated := false, is_staff := false,
                    has_behavior_metrics := true },
          data := [("provider", "metamask")], GET := [], META := [] }
        [] { create_raises := none, metrics_raises := none } 0 =
      ({ status_code := 401, body_status := "error",
         body_message := some "User not authenticated" }, [], 0) :=
  C1_unauthenticated_track _ _ _ _ rfl

/-- C3 counterexample: an authenticated POST with provider "metamask" and
status "success" from a user without a `behavior_metrics` attribute performs
zero metric updates, not exactly one as the claim states. -/
theorem C3_metrics_counterexample :
    (track_wallet_connection
        { user := { uid := 2, is_authenticated := true, is_staff := false,
                    has_behavior_metrics := false },
          data := [("provider", "metamask"), ("status", "success")],
          GET := [], META := [] }
        [] { create_raises := none, metrics_raises := none } 0).2.2 ≠ 1 := by
  decide

/-- C3 (amended): an authenticated POST with provider "metamask" and status
"success" whose persistence and metrics steps raise no exception persists
exactly one new `WalletConnection` carrying those values, and updates the
behavior metrics exactly once if the user has a `behavior_metrics` attribute
and zero times otherwise. -/
theorem C3_metamask_success_persists (req : Request)
    (store : List WalletConnection) (env : DBEnv) (now : Int)
    (hauth : req.user.is_authenticated = true)
    (hc : env.create_raises = none) (hm : env.metrics_raises = none)
    (hp : dictGet req.data "provider" "other" = "metamask")
    (hs : dictGet req.data "status" "failed" = "success") :
    ∃ rec : WalletConnection,
      (track_wallet_connection req store env now).2.1 = store ++ [rec] ∧
      rec.wallet_provider = "metamask" ∧
      rec.connection_status = "success" ∧
      rec.user_id = req.user.uid ∧
      (track_wallet_connection req store env now).2.2 =
        (if req.user.has_behavior_metrics then 1 else 0) := by
  refine ⟨{ user_id := req.user.uid,
            wallet_provider := dictGet req.data "provider" "other",
            wallet_address := dictGet req.data "address" "",
            connection_status := dictGet req.data "status" "failed",
            error_message := dictGet req.data "error" "",
            ip_address := dictGet req.META "REMOTE_ADDR" "",
            user_agent := dictGet req.META "HTTP_USER_AGENT" "",
            attempted_at := now }, ?_, ?_, ?_, ?_, ?_⟩ <;>
    cases hb : req.user.has_behavior_metrics <;>
      simp [track_wallet_connection, track_body, hauth, hc, hm, hb, hp, hs]

theorem C3_metamask_success_persists_witness :
    ∃ rec : WalletConnection,
      (track_wallet_connection
          { user := { uid := 3, is_authenticated := true, is_staff := false,
                      has_behavior_metrics := true },
            data := [("provider", "metamask"), ("status", "success")],
            GET := [], META := [("REMOTE_ADDR", "10.0.0.1")] }
          [] { create_raises := none, metrics_raises := none } 5).2.1 =
        [] ++ [rec] ∧
      rec.wallet_provider = "metamask" ∧
      rec.connection_status = "success" ∧
      rec.user_id = 3 ∧
      (track_wallet_connection
          { user := { uid := 3, is_authenticated := true, is_staff := false,
                      has_behavior_metrics := true },
            data := [("provider", "metamask"), ("status", "success")],
            GET := [], META := [("REMOTE_ADDR", "10.0.0.1")] }
          [] { create_raises := none, metrics_raises := none } 5).2.2 =
        (if true then 1 else 0) :=
  C3_metamask_success_persists _ _ _ _ rfl rfl rfl (by decide) (by decide)

/-- C4: whenever the body of the `try:` block raises (the persistence or the
metrics-update step), `track_wallet_connection` catches the exception and
answers HTTP 400 with body `{"status": "error", "message": str(e)}`; in
particular a raising create leaves the store unchanged, and a raising
metrics update still answers 400 with the exception text.  No exception
propagates (`track_wallet_connection` is a total function into responses). -/
theorem C4_exceptions_caught (req : Request) (store : List WalletConnection)
    (env : DBEnv) (now : Int) :
    (∀ e s u, track_body req store env now = Except.error (e, s, u) →
      track_wallet_connection req store env now =
        ({ status_code := 400, body_status := "error",
           body_message := some e }, s, u)) ∧
    (req.user.is_authenticated = true → ∀ e, env.create_raises = some e →
      track_wallet_connection req store env now =
        ({ status_code := 400, body_status := "error",
           body_message := some e }, store, 0)) ∧
    (req.user.is_authenticated = true → env.create_raises = none →
      req.user.has_behavior_metrics = true → ∀ e,
      env.metrics_raises = some e →
      (track_wallet_connection req store env now).1 =
        { status_code := 400, body_status := "error",
          body_message := some e }) := by
  refine ⟨fun e s u h => by simp [track_wallet_connection, h],
          fun hauth e hc => by simp [track_wallet_connection, track_body, hauth, hc],
          fun hauth hc hb e hm => by
            simp [track_wallet_connection, track_body, hauth, hc, hb, hm]⟩

theorem C4_exceptions_caught_witness :
    track_wallet_connection
        { user := { uid := 4, is_authenticated := true, is_staff := false,
                    has_behavior_metrics := true },
          data := [], GET := [], META := [] }
        [] { create_raises := some "database is locked", metrics_raises := none }
        0 =
      ({ status_code := 400, body_status := "error",
         body_message := some "database is locked" }, [], 0) :=
  (C4_exceptions_caught _ _ _ _).2.1 rfl "database is locked" rfl

/-- C6: on an authenticated POST whose payload omits the provider, address,
status and error fields, the persisted record takes the defaults
"other" / "" / "failed" / "" and copies the IP address and the user agent
from the request metadata (REMOTE_ADDR and HTTP_USER_AGENT). -/
theorem C6_payload_defaults (req : Request) (store : List WalletConnection)
    (env : DBEnv) (now : Int)
    (hauth : req.user.is_authenticated = true)
    (hc : env.create_raises = none)
    (hp : req.data.find? (fun p => p.1 = "provider") = none)
    (ha : req.data.find? (fun p => p.1 = "address") = none)
    (hs : req.data.find? (fun p => p.1 = "status") = none)
    (he : req.data.find? (fun p => p.1 = "error") = none) :
    (track_wallet_connection req store env now).2.1 =
      store ++ [{
        user_id := req.user.uid,
        wallet_provider := "other",
        wallet_address := "",
        connection_status := "failed",
        error_message := "",
        ip_address := dictGet req.META "REMOTE_ADDR" "",
        user_agent := dictGet req.META "HTTP_USER_AGENT" "",
        attempted_at := now }] := by
  cases hb : req.user.has_behavior_metrics
  · simp [track_wallet_connection, track_body, hauth, hc, hb, dictGet,
          hp, ha, hs, he]
  · cases hmr : env.metrics_raises <;>
      simp [track_wallet_connection, track_body, hauth, hc, hb, hmr, dictGet,
            hp, ha, hs, he]

theorem C6_payload_defaults_witness :
    (track_wallet_connection
        { user := { uid := 5, is_authenticated := true, is_staff := false,
                    has_behavior_metrics := false },
          data := [],
          GET := [],
          META := [("REMOTE_ADDR", "192.168.0.9"),
                   ("HTTP_USER_AGENT", "Mozilla/5.0")] }
        [] { create_raises := none, metrics_raises := none } 11).2.1 =
      [] ++ [{
        user_id := 5,
        wallet_provider := "other",
        wallet_address := "",
        connection_status := "failed",
        error_message := "",
        ip_address := dictGet [("REMOTE_ADDR", "192.168.0.9"),
                               ("HTTP_USER_AGENT", "Mozilla/5.0")]
                        "REMOTE_ADDR" "",
        user_agent := dictGet [("REMOTE_ADDR", "192.168.0.9"),
                               ("HTTP_USER_AGENT", "Mozilla/5.0")]
                        "HTTP_USER_AGENT" "",
        attempted_at := 11 }] :=
  C6_payload_defaults _ _ _ _ rfl rfl (by decide) (by decide) (by decide)
    (by decide)

/-- C9: an authenticated POST from a user without a `behavior_metrics`
attribute (when the create does not raise) still persists the record and
answers `{"status": "success"}` with HTTP 200, performing zero metric
updates — the missing attribute never produces an error response. -/
theorem C9_no_metrics_attribute (req : Request) (store : List WalletConnection)
    (env : DBEnv) (now : Int)
    (hauth : req.user.is_authenticated = true)
    (hb : req.user.has_behavior_metrics = false)
    (hc : env.create_raises = none) :
    ∃ rec : WalletConnection,
      track_wallet_connection req store env now =
        ({ status_code := 200, body_status := "success",
           body_message := none }, store ++ [rec], 0) := by
  refine ⟨{ user_id := req.user.uid,
            wallet_provider := dictGet req.data "provider" "other",
            wallet_address := dictGet req.data "address" "",
            connection_status := dictGet req.data "status" "failed",
            error_message := dictGet req.data "error" "",
            ip_address := dictGet req.META "REMOTE_ADDR" "",
            user_agent := dictGet req.META "HTTP_USER_AGENT" "",
            attempted_at := now }, ?_⟩
  simp [track_wallet_connection, track_body, hauth, hb, hc]

theorem C9_no_metrics_attribute_witness :
    ∃ rec : WalletConnection,
      track_wallet_connection
          { user := { uid := 6, is_authenticated := true, is_staff := true,
                      has_behavior_metrics := false },
            data := [("provider", "walletconnect"), ("status", "success")],
            GET := [], META := [] }
          [] { create_raises := none, metrics_raises := none } 3 =
        ({ status_code := 200, body_status := "success",
           body_message := none }, [] ++ [rec], 0) :=
  C9_no_metrics_attribute _ _ _ _ rfl rfl rfl

/-- C2: evaluating the guard at the failing input.  An authenticated
non-staff actor is answered with an HTTP 302 redirect to the login page
(`user_passes_test` semantics), not with the HTTP 403 promised by the
`jwt_staff_required` docstring; an unauthenticated actor does get 401. -/
theorem C2_nonstaff_redirect_not_403 :
    jwt_staff_required_guard
        { uid := 8, is_authenticated := true, is_staff := false,
          has_behavior_metrics := false } = GuardDecision.deny 302 ∧
    jwt_staff_required_guard
        { uid := 8, is_authenticated := true, is_staff := false,
          has_behavior_metrics := false } ≠ GuardDecision.deny 403 ∧
    jwt_staff_required_guard
        { uid := 9, is_authenticated := false, is_staff := false,
          has_behavior_metrics := false } = GuardDecision.deny 401 := by
  decide

/-- C10: a staff request whose `days` query parameter is not a decimal
integer string makes both `wallet_trends` and `api_session_data` raise an
uncaught `ValueError` from the `int()` conversion instead of returning a
structured error or a zero-valued summary. -/
theorem C10_days_int_raises :
    wallet_trends
        { user := { uid := 10, is_authenticated := true, is_staff := true,
                    has_behavior_metrics := false },
          data := [], GET := [("days", "abc")], META := [] } [] 0 =
      HandlerOutcome.raised "invalid literal for int() with base 10: 'abc'" ∧
    api_session_data
        { user := { uid := 10, is_authenticated := true, is_staff := true,
                    has_behavior_metrics := false },
          data := [], GET := [("days", "abc")], META := [] } =
      HandlerOutcome.raised "invalid literal for int() with base 10: 'abc'" := by
  constructor <;> decide

/-- Filters with pointwise-equal predicates keep the same number of
elements. -/
theorem length_filter_congr {α : Type} {l : List α} {p q : α → Bool}
    (h : ∀ a, p a = q a) : (l.filter p).length = (l.filter q).length := by
  rw [List.filter_congr fun a _ => h a]

/-- C7: the daily breakdown of `wallet_trends` is ordered by calendar day;
each row counts, among the stored connections attempted at or after
`now - days` days, those of its day (total), those with status "success"
and those with status "failed"; and every stored connection inside the
window is accounted for by some row of its day. -/
theorem C7_wallet_trends_daily (store : List WalletConnection)
    (now days : Int) :
    List.Pairwise (fun a b : DailyRow => a.day < b.day)
      (daily_connections store now days) ∧
    (∀ r ∈ daily_connections store now days,
      r.total = (store.filter (fun c =>
          decide (now - days * 86400 ≤ c.attempted_at ∧
            dayOf c.attempted_at = r.day))).length ∧
      r.successful = (store.filter (fun c =>
          decide (now - days * 86400 ≤ c.attempted_at ∧
            dayOf c.attempted_at = r.day ∧
            c.connection_status = "success"))).length ∧
      r.failed = (store.filter (fun c =>
          decide (now - days * 86400 ≤ c.attempted_at ∧
            dayOf c.attempted_at = r.day ∧
            c.connection_status = "failed"))).length) ∧
    (∀ c ∈ store, now - days * 86400 ≤ c.attempted_at →
      ∃ r ∈ daily_connections store now days,
        r.day = dayOf c.attempted_at) := by
  refine ⟨?_, ?_, ?_⟩
  · simp only [daily_connections]
    rw [List.pairwise_map]
    have hn : (dailyKeys store now days).Nodup :=
      (List.perm_insertionSort _ _).nodup_iff.mpr (List.nodup_dedup _)
    have hs : List.Sorted (· ≤ ·) (dailyKeys store now days) :=
      List.sorted_insertionSort _ _
    exact (hs.lt_of_le hn).imp (fun h => h)
  · intro r hr
    simp only [daily_connections, List.mem_map] at hr
    obtain ⟨d, hd, rfl⟩ := hr
    refine ⟨?_, ?_, ?_⟩ <;>
    · simp only [dailyRowFor, recentConnections, List.filter_filter]
      refine length_filter_congr fun a => ?_
      simp [Bool.decide_and, Bool.and_comm, Bool.and_left_comm, Bool.and_assoc]
  · intro c hc hw
    have hrec : c ∈ recentConnections store now days :=
      List.mem_filter.mpr ⟨hc, decide_eq_true hw⟩
    have hkey : dayOf c.attempted_at ∈ dailyKeys store now days := by
      simp only [dailyKeys, List.mem_insertionSort, List.mem_dedup]
      exact List.mem_map_of_mem _ hrec
    exact ⟨dailyRowFor store now days (dayOf c.attempted_at),
           List.mem_map_of_mem _ hkey, rfl⟩

theorem C7_wallet_trends_daily_witness :
    List.Pairwise (fun a b : DailyRow => a.day < b.day)
      (daily_connections [connA, connB] 90000 2) ∧
    ({ day := 1, total := 1, successful := 1, failed := 0 } : DailyRow).total =
      (([connA, connB] : List WalletConnection).filter (fun c =>
          decide ((90000 : Int) - 2 * 86400 ≤ c.attempted_at ∧
            dayOf c.attempted_at =
              ({ day := 1, total := 1, successful := 1, failed := 0 } :
                DailyRow).day))).length ∧
    ∃ r ∈ daily_connections [connA, connB] 90000 2,
      r.day = dayOf connB.attempted_at :=
  ⟨(C7_wallet_trends_daily [connA, connB] 90000 2).1,
   ((C7_wallet_trends_daily [connA, connB] 90000 2).2.1
      { day := 1, total := 1, successful := 1, failed := 0 } (by decide)).1,
   (C7_wallet_trends_daily [connA, connB] 90000 2).2.2 connB (by decide)
     (by decide)⟩

/-- C5: every row produced by the Cohort Builder satisfies
`retained_users ≤ total_users` and
`retention_rate = retained_users / total_users`, the rate being 0 whenever
`total_users = 0` (no division-by-zero fault). -/
theorem C5_retention_cohort_invariants (period_type : String)
    (sessions : List Session) (now : Nat) (row : RetentionCohort)
    (h : row ∈ calculate_retention_cohorts period_type sessions now) :
    row.retained_users ≤ row.total_users ∧
    row.retention_rate = (row.retained_users : ℚ) / (row.total_users : ℚ) ∧
    (row.total_users = 0 → row.retention_rate = 0) := by
  simp only [calculate_retention_cohorts, List.mem_flatMap, List.mem_map] at h
  obtain ⟨cp, hcp, k, hk, rfl⟩ := h
  refine ⟨List.length_filter_le _ _, ?_, ?_⟩
  · by_cases h0 : (((List.map (fun s => s.user_id) sessions).dedup).filter
        (fun u => firstLogin sessions u / periodLength period_type = cp)).length = 0
    · simp [h0]
    · simp [h0]
  · intro h0
    simp only at h0
    simp [h0]

theorem C5_retention_cohort_invariants_witness :
    sampleCohortRow.retained_users ≤ sampleCohortRow.total_users ∧
    sampleCohortRow.retention_rate =
      (sampleCohortRow.retained_users : ℚ) /
        (sampleCohortRow.total_users : ℚ) ∧
    (sampleCohortRow.total_users = 0 → sampleCohortRow.retention_rate = 0) := by
  have hmem : sampleCohortRow ∈
      calculate_retention_cohorts "weekly" [sampleSession] 0 := by
    norm_num [calculate_retention_cohorts, firstLogin, periodLength,
              sampleSession, sampleCohortRow]
  exact C5_retention_cohort_invariants "weekly" [sampleSession] 0
    sampleCohortRow hmem

/-- C8 counterexample: a request with query parameter `period=yearly` makes
`retention_analysis` invoke the Cohort Builder with period_type "yearly",
a value outside the enumeration daily/weekly/monthly — the produced rows
carry it. -/
theorem C8_period_counterexample :
    (retention_analysis
        { user := { uid := 12, is_authenticated := true, is_staff := true,
                    has_behavior_metrics := false },
          data := [], GET := [("period", "yearly")], META := [] }
        [sampleSession] 0).map (fun r => r.period_type) = ["yearly"] ∧
    ("yearly" : String) ∉ (["daily", "weekly", "monthly"] : List String) := by
  refine ⟨?_, by decide⟩
  simp [retention_analysis, retention_analysis_period, dictGet,
        calculate_retention_cohorts, firstLogin, periodLength,
        sampleSession, List.range_succ]

/-- C8 (amended): the period_type passed to `calculate_retention_cohorts`
is the caller's raw `period` query parameter, unvalidated; only when the
parameter is absent is it guaranteed to lie in the enumeration
daily/weekly/monthly (the default "weekly"). -/
theorem C8_default_period_in_enumeration (req : Request)
    (h : req.GET.find? (fun p => p.1 = "period") = none) :
    retention_analysis_period req ∈
      (["daily", "weekly", "monthly"] : List String) := by
  simp [retention_analysis_period, dictGet, h]

theorem C8_default_period_in_enumeration_witness :
    retention_analysis_period
        { user := { uid := 13, is_authenticated := true, is_staff := true,
                    has_behavior_metrics := false },
          data := [], GET := [], META := [] } ∈
      (["daily", "weekly", "monthly"] : List String) :=
  C8_default_period_in_enumeration _ rfl
